import Mathlib

/-!
Shallow embedding of `src/headless/load_session.cc`, the headless Ardour
session loader.

The program is modelled as a pure function from an *environment* (the
outcomes of the external calls it makes: whether `set_backend` succeeds,
the return code of `engine->start()`, whether `new Session` throws, the
results of `PBD::parse_debug_options`, and the successive return values of
`xthread.receive`) and the command line to a *trace* of observable events
plus an outcome (exit with a code, block forever in `receive`, or undefined
behavior from reading a missing `argv` slot).

Build configuration modelled: a POSIX build, i.e. `PLATFORM_WINDOWS` is not
defined (the signal handlers are installed) and `WINDOWS_VST_SUPPORT` is
not defined (the `-V` option's case body is empty), and `EXIT_FAILURE = 1`.
The compile-time macro `PROGRAM_NAME` is kept as a parameter `progName`.

The three shutdown producers (`access_action`, `engine_halted`,
`wearedone`) are additionally modelled standalone, as functions from their
arguments to the effects they perform: text written to `cerr` and tokens
delivered to the cross-thread channel.
-/

namespace LoadSession

/-- One observable step of a process run: an output, a call into the
engine/session collaborators, or a teardown action. -/
inductive Event where
  | printVersion
  | printHelp
  | err (s : String)
  | setBypassAll
  | setDisableAll
  | setConnectingBlocked
  | parseDebugOpts (s : String)
  | ardourInit (useVst tryHwOptimization : Bool)
  | createPerThreadPool
  | listenTo (bus : String)
  | createEngine
  | setBackend (backend client device : String)
  | engineStart
  | newSession (dir state : String)
  | setSession
  | connectAccessAction
  | connectHalted
  | installSignalHandler (sig : String)
  | requestTransportSpeed
  | receiveWait
  | removeSession
  | deleteSession
  | engineStop
  | engineDestroy
deriving DecidableEq, Repr

/-- Effects of a single producer-callback invocation: the text it writes to
`cerr` and the tokens it delivers to the cross-thread channel.  The
callbacks in the source have no other effects (they never touch the
Session or run teardown), so this record is their whole behavior. -/
structure CallbackEffects where
  cerrOut : String
  delivered : List Char
deriving DecidableEq, Repr

/-- Embedding of `access_action` (load_session.cc lines 67-73): deliver
`'x'` exactly when the pair is `("Common", "Quit")`, otherwise do
nothing. -/
def access_action (action_group action_item : String) : CallbackEffects :=
  if action_group = "Common" && action_item = "Quit" then
    { cerrOut := "", delivered := ['x'] }
  else
    { cerrOut := "", delivered := [] }

/-- Embedding of `engine_halted` (lines 75-86).  The `const char*` argument
is an `Option String` (`none` models a null pointer; the `reason &&
strlen(reason) > 0` guard never dereferences a null or empty string past
the check).  `endl` is the final newline. -/
def engine_halted (reason : Option String) : CallbackEffects :=
  let base := "The audio backend has been shutdown"
  let rest :=
    match reason with
    | some r => if r.length > 0 then ": " ++ r else "."
    | none => "."
  { cerrOut := base ++ rest ++ "\n", delivered := ['x'] }

/-- Embedding of the signal handler `wearedone` (lines 88-93), registered
for SIGINT and SIGTERM; the signal number is ignored. -/
def wearedone (_sig : Int) : CallbackEffects :=
  { cerrOut := "caught signal - terminating.\n", delivered := ['x'] }

/-- How a run ends: `exit` with a code, blocking forever in
`xthread.receive` because no delivery ever arrives, or undefined behavior
(reading `argv` past the terminating null when fewer than two positional
arguments survive option parsing). -/
inductive Outcome where
  | exited (code : Nat)
  | hangs
  | ub
deriving DecidableEq, Repr

/-- A complete run: the trace of observable events and the outcome. -/
structure Run where
  trace : List Event
  outcome : Outcome
deriving DecidableEq, Repr

/-- The exceptions `main` catches around `load_session` (lines 226-240), in
the order of the catch clauses; the strings model `e.what()`. -/
inductive SessExc where
  | failedConstructor (msg : String)
  | portRegistrationFailure (msg : String)
  | stdException (msg : String)
  | unknownExc
deriving DecidableEq, Repr

/-- The `cerr` text each catch clause prints (lines 228-239). -/
def excMessage : SessExc → String
  | SessExc.failedConstructor m => "failed_constructor: " ++ m ++ "\n"
  | SessExc.portRegistrationFailure m => "PortRegistrationFailure: " ++ m ++ "\n"
  | SessExc.stdException m => "exception: " ++ m ++ "\n"
  | SessExc.unknownExc => "unknown exception.\n"

/-- Environment of one run: outcomes of the external calls the program
makes, fixed up front.  `receiveRets` is the sequence of values successive
blocking `xthread.receive` calls would return; the do/while loop stops at
the first nonzero one (a successful one-byte read returns 1, an error -1);
if the list is exhausted first, the process blocks forever. -/
structure Env where
  ardourInitOk : Bool
  setBackendOk : Bool
  engineStartRc : Int
  sessionExc : Option SessExc
  parseDebugFails : String → Bool
  receiveRets : List Int

/-- Embedding of `PBD::downcase`: per-character `tolower`. -/
def downcase (s : String) : String :=
  String.mk (s.toList.map Char.toLower)

/-- One result of `getopt_long`: an accepted option character with its
argument, or `bad` for the `'?'` error return (unknown option, missing
required argument, or argument given to a no-argument long option). -/
inductive OptTok where
  | good (c : Char) (arg : Option String)
  | bad
deriving DecidableEq, Repr

/-- Short-option table from the optstring `"vhBdD:c:VOU:P"`: `some true`
means the option takes a required argument, `some false` no argument,
`none` that the character is not an option. -/
def shortOptTakesArg : Char → Option Bool
  | 'v' => some false
  | 'h' => some false
  | 'B' => some false
  | 'd' => some false
  | 'D' => some true
  | 'c' => some true
  | 'V' => some false
  | 'O' => some false
  | 'U' => some true
  | 'P' => some false
  | _ => none

/-- The `longopts` table (lines 133-145): name, has_arg, and the short
character returned (every entry has a null `flag` pointer).  Note that
`--bypass-plugins` and `--disable-plugins` are declared with `has_arg = 1`
even though their short forms take no argument. -/
def longopts : List (String × Bool × Char) :=
  [("version", false, 'v'), ("help", false, 'h'), ("bypass-plugins", true, 'B'),
   ("disable-plugins", true, 'd'), ("debug", true, 'D'), ("name", true, 'c'),
   ("novst", false, 'V'), ("no-hw-optimizations", false, 'O'),
   ("uuid", true, 'U'), ("no-connect-ports", false, 'P')]

/-- Look up a long option by exact name. -/
def lookupLong (name : String) : Option (Bool × Char) :=
  (longopts.find? (fun p => p.1 = name)).map (fun p => p.2)

/-- Split a long-option body at the first `=`, if any. -/
def splitEqAux : List Char → List Char × Option (List Char)
  | [] => ([], none)
  | c :: cs =>
    if c = '=' then ([], some cs)
    else
      let r := splitEqAux cs
      (c :: r.1, r.2)

/-- Modelled from the documented behavior of glibc `getopt_long` on a
short-option cluster (the characters after a single `-`): unknown
characters yield `'?'` and scanning continues; a character that requires an
argument takes the rest of the cluster if nonempty, else the next `argv`
element, else yields `'?'`.  Returns the tokens and the remaining `argv`
elements. -/
def scanShort (cs : List Char) (rest : List String) : List OptTok × List String :=
  match cs with
  | [] => ([], rest)
  | c :: cs2 =>
    match shortOptTakesArg c with
    | none =>
      let r := scanShort cs2 rest
      (OptTok.bad :: r.1, r.2)
    | some false =>
      let r := scanShort cs2 rest
      (OptTok.good c none :: r.1, r.2)
    | some true =>
      if cs2 ≠ [] then ([OptTok.good c (some (String.mk cs2))], rest)
      else
        match rest with
        | a :: rest2 => ([OptTok.good c (some a)], rest2)
        | [] => ([OptTok.bad], [])

/-- Modelled from the documented behavior of glibc `getopt_long` on a long
option (`body` is the character list after the leading `--`, possibly
`name=arg`); exact names only (abbreviation support is not modelled, no
argument here uses it).  An argument supplied to a no-argument option, a
missing required argument, or an unknown name yields `'?'`. -/
def scanLong (body : List Char) (rest : List String) : OptTok × List String :=
  let split := splitEqAux body
  match lookupLong (String.mk split.1) with
  | none => (OptTok.bad, rest)
  | some (true, c) =>
    match split.2 with
    | some a => (OptTok.good c (some (String.mk a)), rest)
    | none =>
      match rest with
      | a :: rest2 => (OptTok.good c (some a), rest2)
      | [] => (OptTok.bad, [])
  | some (false, c) =>
    match split.2 with
    | some _ => (OptTok.bad, rest)
    | none => (OptTok.good c none, rest)

/-- Fuel-indexed worker for `tokenize`; each step consumes at least one
`argv` element, so fuel equal to the argument count suffices.  An element
`--` alone ends option scanning; `--body` is a long option; `-c...` a
short-option cluster; anything else (including a lone `-`) is a
non-option argument. -/
def tokenizeFuel : Nat → List String → List OptTok × List String
  | 0, _ => ([], [])
  | _ + 1, [] => ([], [])
  | fuel + 1, a :: rest =>
    match a.toList with
    | '-' :: '-' :: [] => ([], rest)
    | '-' :: '-' :: body =>
      let s := scanLong body rest
      let r := tokenizeFuel fuel s.2
      (s.1 :: r.1, r.2)
    | '-' :: c :: cs =>
      let s := scanShort (c :: cs) rest
      let r := tokenizeFuel fuel s.2
      (s.1 ++ r.1, r.2)
    | _ =>
      let r := tokenizeFuel fuel rest
      (r.1, a :: r.2)

/-- Modelled from the documented behavior of glibc `getopt_long` over the
whole command line (the `argv` elements after the program name, which glibc
permutes so that by the time it returns -1 all non-options sit at the end,
from index `optind` on): the stream of option results in scan order, and
the non-option (positional) arguments in their original relative order.
`--` ends option scanning. -/
def tokenize (args : List String) : List OptTok × List String :=
  tokenizeFuel args.length args

/-- The mutable state the option loop in `main` (lines 147-212) threads:
`backend_client_name` (a file-level static, initialised at line 153 to the
downcased program name) and the two locals `use_vst` and
`try_hw_optimization` (lines 150-151).  Without `WINDOWS_VST_SUPPORT`,
`use_vst` is never written after initialisation. -/
structure OptState where
  clientName : String
  useVst : Bool
  tryHwOptimization : Bool
deriving DecidableEq, Repr

/-- Initial option-loop state (lines 150-153). -/
def initState (progName : String) : OptState :=
  { clientName := downcase progName, useVst := true, tryHwOptimization := true }

/-- One iteration of the `switch` in `main` (lines 162-211): either
continue with emitted events and an updated state (`Sum.inl`), or call
`exit` with the given code (`Sum.inr`).  `'U'` is accepted by the
optstring but has no case, so it falls to `default` (help + exit 1), as
does the `'?'` error return (`OptTok.bad`). -/
def processOpt (env : Env) (st : OptState) (t : OptTok) :
    (List Event × OptState) ⊕ (List Event × Nat) :=
  match t with
  | OptTok.bad => Sum.inr ([Event.printHelp], 1)
  | OptTok.good c arg =>
    if c = 'v' then Sum.inr ([Event.printVersion], 0)
    else if c = 'h' then Sum.inr ([Event.printHelp], 0)
    else if c = 'c' then
      match arg with
      | some a => Sum.inl ([], { st with clientName := a })
      | none => Sum.inl ([], st)
    else if c = 'B' then Sum.inl ([Event.setBypassAll], st)
    else if c = 'd' then Sum.inl ([Event.setDisableAll], st)
    else if c = 'D' then
      match arg with
      | some a =>
        if env.parseDebugFails a then Sum.inr ([Event.parseDebugOpts a], 1)
        else Sum.inl ([Event.parseDebugOpts a], st)
      | none => Sum.inl ([], st)
    else if c = 'O' then Sum.inl ([], { st with tryHwOptimization := false })
    else if c = 'P' then Sum.inl ([Event.setConnectingBlocked], st)
    else if c = 'V' then Sum.inl ([], st)
    else Sum.inr ([Event.printHelp], 1)

/-- The whole `while (1)` option loop, folding `processOpt` over the
`getopt_long` results and stopping at the first `exit`. -/
def processOpts (env : Env) : OptState → List OptTok → (List Event × OptState) ⊕ (List Event × Nat)
  | st, [] => Sum.inl ([], st)
  | st, t :: ts =>
    match processOpt env st t with
    | Sum.inl (es, st2) =>
      match processOpts env st2 ts with
      | Sum.inl (es2, st3) => Sum.inl (es ++ es2, st3)
      | Sum.inr (es2, code) => Sum.inr (es ++ es2, code)
    | Sum.inr (es, code) => Sum.inr (es, code)

/-- The file-level static `backend_name` (line 33); nothing ever assigns
to it. -/
def backend_name : String := "JACK"

/-- How the call to `load_session` in `main`'s try block ends. -/
inductive LoadRes where
  | exitedIn (code : Nat)
  | threw (e : SessExc)
  | ok
deriving DecidableEq, Repr

/-- Embedding of `load_session` (lines 40-65): thread-pool and
message-sink setup, engine creation, backend selection (exit 1 on
failure), engine start (exit 1 on nonzero return), session construction
(may throw), and `set_session`. -/
def load_session (env : Env) (clientName dir state : String) : List Event × LoadRes :=
  let pre : List Event :=
    [Event.createPerThreadPool, Event.listenTo "error", Event.listenTo "info",
     Event.listenTo "fatal", Event.listenTo "warning", Event.createEngine,
     Event.setBackend backend_name clientName ""]
  if env.setBackendOk = false then
    (pre ++ [Event.err "Cannot set Audio/MIDI engine backend\n"], LoadRes.exitedIn 1)
  else if env.engineStartRc ≠ 0 then
    (pre ++ [Event.engineStart, Event.err "Cannot start Audio/MIDI engine\n"],
     LoadRes.exitedIn 1)
  else
    match env.sessionExc with
    | some e => (pre ++ [Event.engineStart, Event.newSession dir state], LoadRes.threw e)
    | none =>
      (pre ++ [Event.engineStart, Event.newSession dir state, Event.setSession], LoadRes.ok)

/-- The do/while loop at line 254: one `receiveWait` event per blocking
`receive` call, looping while the call returns 0; `true` means a nonzero
return ended the loop, `false` that the oracle ran out (the process would
block forever). -/
def receiveLoop : List Int → List Event × Bool
  | [] => ([], false)
  | r :: rs =>
    if r = 0 then (Event.receiveWait :: (receiveLoop rs).1, (receiveLoop rs).2)
    else ([Event.receiveWait], true)

/-- The fixed teardown sequence (lines 256-260): `remove_session`,
`delete s`, `AudioEngine::stop`, `AudioEngine::destroy`. -/
def teardownEvents : List Event :=
  [Event.removeSession, Event.deleteSession, Event.engineStop, Event.engineDestroy]

/-- The steps between a successful `load_session` and the receive loop
(lines 242-251): callback registration, signal-handler installation, and
the initial transport request (the spec's `SessionLoaded → Running`
transition). -/
def sessionBridgeEvents : List Event :=
  [Event.connectAccessAction, Event.connectHalted,
   Event.installSignalHandler "SIGINT", Event.installSignalHandler "SIGTERM",
   Event.requestTransportSpeed]

/-- The tail of `main` once `load_session` returned normally (lines
242-262): bridge setup, the receive loop, then teardown and `return 0` —
or blocking forever if no delivery ever arrives. -/
def runLoaded (env : Env) (es : List Event) : Run :=
  if (receiveLoop env.receiveRets).2 then
    { trace := es ++ sessionBridgeEvents ++ (receiveLoop env.receiveRets).1 ++ teardownEvents,
      outcome := Outcome.exited 0 }
  else
    { trace := es ++ sessionBridgeEvents ++ (receiveLoop env.receiveRets).1,
      outcome := Outcome.hangs }

/-- `main` after `ARDOUR::init` succeeded (lines 224-240): read
`argv[optind]` and `argv[optind+1]` (undefined behavior when fewer than two
positionals remain — those slots are the terminating null of `argv` or
beyond), call `load_session` inside the try block, and dispatch on its
outcome; every catch clause prints to `cerr` and exits `EXIT_FAILURE`
(= 1). -/
def afterInit (env : Env) (es : List Event) (clientName : String) (ps : List String) : Run :=
  match ps with
  | dir :: snap :: _ =>
    match (load_session env clientName dir snap).2 with
    | LoadRes.exitedIn code =>
      { trace := es ++ (load_session env clientName dir snap).1, outcome := Outcome.exited code }
    | LoadRes.threw e =>
      { trace := es ++ (load_session env clientName dir snap).1 ++ [Event.err (excMessage e)],
        outcome := Outcome.exited 1 }
    | LoadRes.ok => runLoaded env (es ++ (load_session env clientName dir snap).1)
  | _ => { trace := es, outcome := Outcome.ub }

/-- `main` after the option loop finished without exiting (lines 214-222):
the `argc < 3` guard (help + exit 1), then `ARDOUR::init` (exit 1 with a
`cerr` message on failure). -/
def afterParse (env : Env) (argc : Nat) (es : List Event) (st : OptState)
    (ps : List String) : Run :=
  if argc < 3 then
    { trace := es ++ [Event.printHelp], outcome := Outcome.exited 1 }
  else if env.ardourInitOk then
    afterInit env (es ++ [Event.ardourInit st.useVst st.tryHwOptimization]) st.clientName ps
  else
    { trace := es ++ [Event.ardourInit st.useVst st.tryHwOptimization,
                      Event.err "Ardour failed to initialize\n"],
      outcome := Outcome.exited 1 }

/-- Embedding of `main` (lines 129-263).  `args` is `argv` without the
program name, so `argc = args.length + 1`. -/
def mainRun (env : Env) (progName : String) (args : List String) : Run :=
  match processOpts env (initState progName) (tokenize args).1 with
  | Sum.inr (es, code) => { trace := es, outcome := Outcome.exited code }
  | Sum.inl (es, st) => afterParse env (args.length + 1) es st (tokenize args).2

/-- A fully cooperative environment: every external call succeeds and the
first `receive` reports a delivery. -/
def envAllOk : Env :=
  { ardourInitOk := true, setBackendOk := true, engineStartRc := 0,
    sessionExc := none, parseDebugFails := fun _ => false, receiveRets := [1] }

/-- An environment where `set_backend` fails. -/
def envNoBackend : Env :=
  { envAllOk with setBackendOk := false }

/-- An environment where `new Session` throws a `failed_constructor`. -/
def envSessionThrows : Env :=
  { envAllOk with sessionExc := some (SessExc.failedConstructor "boom") }

/-- Events the option loop can emit. -/
def optEvent : Event → Bool
  | Event.printVersion => true
  | Event.printHelp => true
  | Event.setBypassAll => true
  | Event.setDisableAll => true
  | Event.setConnectingBlocked => true
  | Event.parseDebugOpts _ => true
  | _ => false

/-- Events `load_session` can emit. -/
def loadEvent : Event → Bool
  | Event.createPerThreadPool => true
  | Event.listenTo _ => true
  | Event.createEngine => true
  | Event.setBackend _ _ _ => true
  | Event.engineStart => true
  | Event.newSession _ _ => true
  | Event.setSession => true
  | Event.err _ => true
  | _ => false

/-- The receive wait and the four teardown steps: everything that may only
happen after the `Running` phase began. -/
def lateEvent : Event → Bool
  | Event.receiveWait => true
  | Event.removeSession => true
  | Event.deleteSession => true
  | Event.engineStop => true
  | Event.engineDestroy => true
  | _ => false

/-- The event list of either branch of an option-loop result. -/
def emittedEvents : (List Event × OptState) ⊕ (List Event × Nat) → List Event
  | Sum.inl (es, _) => es
  | Sum.inr (es, _) => es

/-- The net effect of one option result on `backend_client_name`. -/
def clientUpd (acc : String) (t : OptTok) : String :=
  match t with
  | OptTok.good c (some a) => if c = 'c' then a else acc
  | _ => acc

set_option maxHeartbeats 1000000 in
theorem optEvent_all_processOpt (env : Env) (st : OptState) (t : OptTok) :
    (emittedEvents (processOpt env st t)).all optEvent = true := by
  rcases t with ⟨c, arg⟩ | _
  · rcases arg with _ | a <;> simp only [processOpt] <;> split_ifs <;> rfl
  · rfl

theorem optEvent_all_processOpts (env : Env) :
    ∀ (ts : List OptTok) (st : OptState),
      (emittedEvents (processOpts env st ts)).all optEvent = true := by
  intro ts
  induction ts with
  | nil => intro st; rfl
  | cons t ts ih =>
    intro st
    have h1 := optEvent_all_processOpt env st t
    simp only [processOpts]
    rcases hp : processOpt env st t with ⟨es, st2⟩ | ⟨es, code⟩
    · have h2 := ih st2
      rcases hq : processOpts env st2 ts with ⟨es2, st3⟩ | ⟨es2, code2⟩ <;>
        simp_all [emittedEvents, List.all_append]
    · simp_all [emittedEvents]

set_option maxHeartbeats 1000000 in
theorem processOpt_clientName (env : Env) (st : OptState) (t : OptTok) (es : List Event)
    (st2 : OptState) (h : processOpt env st t = Sum.inl (es, st2)) :
    st2.clientName = clientUpd st.clientName t := by
  rcases t with ⟨c, arg⟩ | _
  · rcases arg with _ | a <;> simp only [processOpt] at h <;> split_ifs at h <;>
      simp_all [clientUpd] <;> rw [← h.2]
  · simp [processOpt] at h

theorem processOpts_clientName (env : Env) :
    ∀ (ts : List OptTok) (st : OptState) (es : List Event) (st2 : OptState),
      processOpts env st ts = Sum.inl (es, st2) →
      st2.clientName = ts.foldl clientUpd st.clientName := by
  intro ts
  induction ts with
  | nil =>
    intro st es st2 h
    simp only [processOpts, Sum.inl.injEq, Prod.mk.injEq] at h
    rw [← h.2]
    rfl
  | cons t ts ih =>
    intro st es st2 h
    simp only [processOpts] at h
    rcases hp : processOpt env st t with ⟨es1, stm⟩ | ⟨es1, code⟩
    · rw [hp] at h
      simp only [] at h
      rcases hq : processOpts env stm ts with ⟨es2, st3⟩ | ⟨es2, code2⟩
      · rw [hq] at h
        simp only [Sum.inl.injEq, Prod.mk.injEq] at h
        rw [List.foldl_cons, ← processOpt_clientName env st t es1 stm hp, ← h.2]
        exact ih stm es2 st3 hq
      · rw [hq] at h
        simp at h
    · rw [hp] at h
      simp at h

theorem receiveLoop_waits : ∀ (rs : List Int), ∀ e ∈ (receiveLoop rs).1, e = Event.receiveWait := by
  intro rs
  induction rs with
  | nil => intro e he; simp [receiveLoop] at he
  | cons r rs ih =>
    intro e he
    simp only [receiveLoop] at he
    by_cases h : r = 0
    · rw [if_pos h] at he
      rcases List.mem_cons.mp he with h1 | h1
      · exact h1
      · exact ih e h1
    · rw [if_neg h] at he
      simpa using he

theorem receiveLoop_done_replicate : ∀ (rs : List Int), (receiveLoop rs).2 = true →
    ∃ k, (receiveLoop rs).1 = List.replicate (k + 1) Event.receiveWait := by
  intro rs
  induction rs with
  | nil => intro h; simp [receiveLoop] at h
  | cons r rs ih =>
    intro h
    by_cases hr : r = 0
    · simp only [receiveLoop, if_pos hr] at h ⊢
      rcases ih h with ⟨k, hk⟩
      exact ⟨k + 1, by rw [hk]; rfl⟩
    · simp only [receiveLoop, if_neg hr]
      exact ⟨0, rfl⟩

theorem loadEvent_all_load_session (env : Env) (cl dir snap : String) :
    ((load_session env cl dir snap).1).all loadEvent = true := by
  simp only [load_session]
  split_ifs <;> try rfl
  rcases henv : env.sessionExc with _ | e <;> rfl

theorem load_session_setBackend_eq (env : Env) (cl dir snap n c d : String)
    (h : Event.setBackend n c d ∈ (load_session env cl dir snap).1) :
    n = backend_name ∧ c = cl ∧ d = "" := by
  simp only [load_session] at h
  split_ifs at h
  · simp at h; tauto
  · simp at h; tauto
  · rcases henv : env.sessionExc with _ | e <;> rw [henv] at h <;> simp at h <;> tauto

theorem optEvent_facts (e : Event) (h : optEvent e = true) :
    lateEvent e = false ∧ e ≠ Event.requestTransportSpeed ∧ e ≠ Event.createEngine ∧
    (∀ n c d, e ≠ Event.setBackend n c d) ∧ (∀ v b, e ≠ Event.ardourInit v b) := by
  cases e <;> simp_all [optEvent, lateEvent]

theorem loadEvent_facts (e : Event) (h : loadEvent e = true) :
    lateEvent e = false ∧ e ≠ Event.requestTransportSpeed := by
  cases e <;> simp_all [loadEvent, lateEvent]

theorem all_optEvent_facts (es : List Event) (h : es.all optEvent = true) :
    (∀ e ∈ es, lateEvent e = false) ∧ Event.requestTransportSpeed ∉ es ∧
    Event.createEngine ∉ es ∧ (∀ n c d, Event.setBackend n c d ∉ es) ∧
    (∀ v b, Event.ardourInit v b ∉ es) := by
  rw [List.all_eq_true] at h
  refine ⟨fun e he => (optEvent_facts e (h e he)).1, fun hmem => ?_, fun hmem => ?_,
    fun n c d hmem => ?_, fun v b hmem => ?_⟩
  · exact (optEvent_facts _ (h _ hmem)).2.1 rfl
  · exact (optEvent_facts _ (h _ hmem)).2.2.1 rfl
  · exact (optEvent_facts _ (h _ hmem)).2.2.2.1 n c d rfl
  · exact (optEvent_facts _ (h _ hmem)).2.2.2.2 v b rfl

theorem all_loadEvent_facts (es : List Event) (h : es.all loadEvent = true) :
    (∀ e ∈ es, lateEvent e = false) ∧ Event.requestTransportSpeed ∉ es := by
  rw [List.all_eq_true] at h
  exact ⟨fun e he => (loadEvent_facts e (h e he)).1,
    fun hmem => (loadEvent_facts _ (h _ hmem)).2 rfl⟩

theorem bridge_not_late : ∀ e ∈ sessionBridgeEvents, lateEvent e = false := by decide

theorem load_session_backend_fail (env : Env) (cl dir snap : String)
    (h : env.setBackendOk = false) :
    (load_session env cl dir snap).2 = LoadRes.exitedIn 1 ∧
      Event.err "Cannot set Audio/MIDI engine backend\n" ∈ (load_session env cl dir snap).1 := by
  simp [load_session, h]

theorem load_session_start_fail (env : Env) (cl dir snap : String)
    (h1 : env.setBackendOk = true) (h2 : env.engineStartRc ≠ 0) :
    (load_session env cl dir snap).2 = LoadRes.exitedIn 1 ∧
      Event.err "Cannot start Audio/MIDI engine\n" ∈ (load_session env cl dir snap).1 := by
  simp [load_session, h1, h2]

theorem load_session_threw (env : Env) (cl dir snap : String) (e : SessExc)
    (h1 : env.setBackendOk = true) (h2 : env.engineStartRc = 0) (h3 : env.sessionExc = some e) :
    (load_session env cl dir snap).2 = LoadRes.threw e := by
  simp [load_session, h1, h2, h3]

theorem load_session_ok (env : Env) (cl dir snap : String)
    (h1 : env.setBackendOk = true) (h2 : env.engineStartRc = 0) (h3 : env.sessionExc = none) :
    (load_session env cl dir snap).2 = LoadRes.ok := by
  simp [load_session, h1, h2, h3]

theorem createEngine_mem_load (env : Env) (cl dir snap : String) :
    Event.createEngine ∈ (load_session env cl dir snap).1 := by
  simp only [load_session]
  split_ifs <;> try simp
  rcases henv : env.sessionExc with _ | e <;> simp

/-- Shape of the post-load tail: either some `receive` call reports a
delivery and the run ends in teardown and exit 0, or the process hangs. -/
theorem runLoaded_shape (env : Env) (es : List Event) :
    ((receiveLoop env.receiveRets).2 = true ∧ ∃ k,
      runLoaded env es = Run.mk
        (es ++ sessionBridgeEvents ++ List.replicate (k + 1) Event.receiveWait ++ teardownEvents)
        (Outcome.exited 0)) ∨
    ((receiveLoop env.receiveRets).2 = false ∧
      runLoaded env es = Run.mk (es ++ sessionBridgeEvents ++ (receiveLoop env.receiveRets).1)
        Outcome.hangs) := by
  by_cases h : (receiveLoop env.receiveRets).2 = true
  · left
    refine ⟨h, ?_⟩
    rcases receiveLoop_done_replicate env.receiveRets h with ⟨k, hk⟩
    exact ⟨k, by simp [runLoaded, h, hk]⟩
  · right
    simp only [Bool.not_eq_true] at h
    simp [runLoaded, h]

/-- Case analysis of a complete run: every run takes exactly one of the
seven paths of `main`. -/
theorem mainRun_shape (env : Env) (p : String) (args : List String) :
    (∃ es code, processOpts env (initState p) (tokenize args).1 = Sum.inr (es, code) ∧
      mainRun env p args = Run.mk es (Outcome.exited code) ∧
      es.all optEvent = true) ∨
    (∃ es st, processOpts env (initState p) (tokenize args).1 = Sum.inl (es, st) ∧
      args.length < 2 ∧
      mainRun env p args = Run.mk (es ++ [Event.printHelp]) (Outcome.exited 1) ∧
      es.all optEvent = true) ∨
    (∃ es st, processOpts env (initState p) (tokenize args).1 = Sum.inl (es, st) ∧
      ¬ args.length < 2 ∧ env.ardourInitOk = false ∧
      mainRun env p args = Run.mk (es ++ [Event.ardourInit st.useVst st.tryHwOptimization,
        Event.err "Ardour failed to initialize\n"]) (Outcome.exited 1) ∧
      es.all optEvent = true) ∨
    (∃ es st, processOpts env (initState p) (tokenize args).1 = Sum.inl (es, st) ∧
      ¬ args.length < 2 ∧ env.ardourInitOk = true ∧ (tokenize args).2.length < 2 ∧
      mainRun env p args = Run.mk (es ++ [Event.ardourInit st.useVst st.tryHwOptimization])
        Outcome.ub ∧
      es.all optEvent = true) ∨
    (∃ es st dir snap rest, processOpts env (initState p) (tokenize args).1 = Sum.inl (es, st) ∧
      ¬ args.length < 2 ∧ env.ardourInitOk = true ∧
      (tokenize args).2 = dir :: snap :: rest ∧
      es.all optEvent = true ∧
      ((∃ code, (load_session env st.clientName dir snap).2 = LoadRes.exitedIn code ∧
        mainRun env p args = Run.mk (es ++ [Event.ardourInit st.useVst st.tryHwOptimization]
          ++ (load_session env st.clientName dir snap).1) (Outcome.exited code)) ∨
      (∃ e, (load_session env st.clientName dir snap).2 = LoadRes.threw e ∧
        mainRun env p args = Run.mk (es ++ [Event.ardourInit st.useVst st.tryHwOptimization]
          ++ (load_session env st.clientName dir snap).1 ++ [Event.err (excMessage e)])
          (Outcome.exited 1)) ∨
      ((load_session env st.clientName dir snap).2 = LoadRes.ok ∧
        mainRun env p args = runLoaded env (es ++ [Event.ardourInit st.useVst st.tryHwOptimization]
          ++ (load_session env st.clientName dir snap).1)))) := by
  have hall := optEvent_all_processOpts env (tokenize args).1 (initState p)
  unfold mainRun
  rcases hp : processOpts env (initState p) (tokenize args).1 with ⟨es, st⟩ | ⟨es, code⟩
  · rw [hp] at hall
    by_cases hlen : args.length + 1 < 3
    · right; left
      exact ⟨es, st, rfl, by omega, by simp [afterParse, hlen], hall⟩
    · by_cases hai : env.ardourInitOk
      · rcases hps : (tokenize args).2 with _ | ⟨dir, rest1⟩
        · right; right; right; left
          exact ⟨es, st, rfl, by omega, hai, by simp [hps],
            by simp [afterParse, hlen, hai, afterInit, hps], hall⟩
        · rcases rest1 with _ | ⟨snap, rest⟩
          · right; right; right; left
            exact ⟨es, st, rfl, by omega, hai, by simp [hps],
              by simp [afterParse, hlen, hai, afterInit, hps], hall⟩
          · right; right; right; right
            refine ⟨es, st, dir, snap, rest, rfl, by omega, hai, rfl, hall, ?_⟩
            rcases hlr : (load_session env st.clientName dir snap).2 with code | e | _
            · exact Or.inl ⟨code, rfl,
                by simp [afterParse, hlen, hai, afterInit, hps, hlr]⟩
            · exact Or.inr (Or.inl ⟨e, rfl,
                by simp [afterParse, hlen, hai, afterInit, hps, hlr]⟩)
            · exact Or.inr (Or.inr ⟨rfl,
                by simp [afterParse, hlen, hai, afterInit, hps, hlr]⟩)
      · right; right; left
        simp only [Bool.not_eq_true] at hai
        exact ⟨es, st, rfl, by omega, hai, by simp [afterParse, hlen, hai], hall⟩
  · rw [hp] at hall
    exact Or.inl ⟨es, code, rfl, rfl, hall⟩

theorem length_pos_of_ne_empty (r : String) (h : r ≠ "") : 0 < r.length := by
  rcases r with ⟨l⟩
  cases l with
  | nil => exact absurd rfl h
  | cons c cs => simp [String.length]

/-- C3: the UI action callback delivers a token to the channel if and only
if the pair is `("Common", "Quit")`; every other pair leaves the callback
with no effect at all (no output, no delivery). -/
theorem access_action_quit_iff (action_group action_item : String) :
    ((access_action action_group action_item).delivered = ['x'] ↔
      (action_group = "Common" ∧ action_item = "Quit")) ∧
    (¬ (action_group = "Common" ∧ action_item = "Quit") →
      access_action action_group action_item = { cerrOut := "", delivered := [] }) := by
  by_cases hg : action_group = "Common" <;> by_cases hi : action_item = "Quit" <;>
    simp [access_action, hg, hi]

theorem access_action_quit_iff_witness :
    (access_action "Common" "Quit").delivered = ['x'] ∧
    access_action "Common" "Stop" = { cerrOut := "", delivered := [] } :=
  ⟨(access_action_quit_iff "Common" "Quit").1.mpr ⟨rfl, rfl⟩,
   (access_action_quit_iff "Common" "Stop").2 (by decide)⟩

/-- C4: the engine-halt callback always writes a diagnostic beginning with
the fixed message (carrying the reason when a nonempty one is present) and
delivers exactly one token; those are its only effects — it never touches
the session or runs teardown (the model returns nothing else). -/
theorem engine_halted_logs_then_delivers (reason : Option String) :
    (engine_halted reason).delivered = ['x'] ∧
    (∃ rest, (engine_halted reason).cerrOut =
      "The audio backend has been shutdown" ++ rest) ∧
    (∀ r, reason = some r → r ≠ "" →
      (engine_halted reason).cerrOut =
        "The audio backend has been shutdown: " ++ r ++ "\n") := by
  refine ⟨rfl, ?_, ?_⟩
  · rcases reason with _ | r
    · exact ⟨".\n", rfl⟩
    · by_cases h : r.length > 0
      · exact ⟨": " ++ r ++ "\n", by
          simp only [engine_halted, if_pos h]
          apply String.ext
          simp [String.data_append]⟩
      · exact ⟨".\n", by simp [engine_halted, h]⟩
  · intro r hr hne
    subst hr
    have h := length_pos_of_ne_empty r hne
    simp only [engine_halted, if_pos h]
    apply String.ext
    simp [String.data_append]

theorem engine_halted_logs_then_delivers_witness :
    (engine_halted (some "device removed")).delivered = ['x'] ∧
    (engine_halted (some "device removed")).cerrOut =
      "The audio backend has been shutdown: device removed\n" :=
  ⟨(engine_halted_logs_then_delivers (some "device removed")).1,
   (engine_halted_logs_then_delivers (some "device removed")).2.2 "device removed" rfl
     (by decide)⟩

/-- C8: the signal handler and the engine-halt callback always deliver
exactly the one-byte token `'x'`, and the UI action callback delivers
either that same token or nothing — so the three shutdown sources are
indistinguishable at the consumer. -/
theorem producers_deliver_token_x (sig : Int) (reason : Option String)
    (action_group action_item : String) :
    (wearedone sig).delivered = ['x'] ∧
    (engine_halted reason).delivered = ['x'] ∧
    ((access_action action_group action_item).delivered = ['x'] ∨
      (access_action action_group action_item).delivered = []) := by
  refine ⟨rfl, rfl, ?_⟩
  by_cases hg : action_group = "Common" <;> by_cases hi : action_item = "Quit" <;>
    simp [access_action, hg, hi]

/-- C10: with a null or an empty reason the engine-halt callback never
reads past the guard: it logs the fixed message with a final period and
still delivers the shutdown token. -/
theorem engine_halted_null_empty_safe :
    engine_halted none =
      { cerrOut := "The audio backend has been shutdown.\n", delivered := ['x'] } ∧
    engine_halted (some "") =
      { cerrOut := "The audio backend has been shutdown.\n", delivered := ['x'] } := by
  constructor <;> rfl

/-- C7 counterexample: the invocation `hardour -h` supplies fewer than two
positional arguments (none, in fact), yet the run prints the help text and
exits with status 0, not 1 — the claim as stated fails. -/
theorem missing_args_counterexample :
    (tokenize ["-h"]).2.length < 2 ∧
    mainRun envAllOk "hardour" ["-h"] = Run.mk [Event.printHelp] (Outcome.exited 0) := by
  constructor
  · decide
  · rfl

/-- C7 amended: for every invocation whose total `argv` count (program
name included) is below three and whose option processing completes
without itself exiting (no `-v`, `-h`, unknown option, `-U`, or failing
`-D`), the help text is printed, the process exits with status 1, and the
engine is never created. -/
theorem missing_args_help_exit1 (env : Env) (progName : String) (args : List String)
    (es : List Event) (st : OptState)
    (hargs : args.length < 2)
    (hopts : processOpts env (initState progName) (tokenize args).1 = Sum.inl (es, st)) :
    (mainRun env progName args).trace = es ++ [Event.printHelp] ∧
    (mainRun env progName args).outcome = Outcome.exited 1 ∧
    Event.createEngine ∉ (mainRun env progName args).trace := by
  have hall := optEvent_all_processOpts env (tokenize args).1 (initState progName)
  rw [hopts] at hall
  have hfacts := all_optEvent_facts es hall
  have hlt : args.length + 1 < 3 := by omega
  have hrun : mainRun env progName args = Run.mk (es ++ [Event.printHelp]) (Outcome.exited 1) := by
    unfold mainRun
    rw [hopts]
    simp [afterParse, hlt]
  refine ⟨?_, ?_, ?_⟩ <;> rw [hrun]
  intro hmem
  rcases List.mem_append.mp hmem with hmem1 | hmem1
  · exact hfacts.2.2.1 hmem1
  · simp at hmem1

theorem missing_args_help_exit1_witness :
    (mainRun envAllOk "hardour" ["-d"]).trace = [Event.setDisableAll] ++ [Event.printHelp] ∧
    (mainRun envAllOk "hardour" ["-d"]).outcome = Outcome.exited 1 ∧
    Event.createEngine ∉ (mainRun envAllOk "hardour" ["-d"]).trace :=
  missing_args_help_exit1 envAllOk "hardour" ["-d"] [Event.setDisableAll]
    (initState "hardour") (by decide) (by rfl)

theorem not_mem_of_all_opt (es : List Event) (hall : es.all optEvent = true) (e : Event)
    (hlate : lateEvent e = true) : e ∉ es := fun hmem => by
  rw [(all_optEvent_facts es hall).1 e hmem] at hlate
  exact Bool.false_ne_true hlate

theorem lateEvent_not_mem_startup (env : Env) (es : List Event) (v b : Bool)
    (cl dir snap : String) (hall : es.all optEvent = true) (e : Event)
    (hlate : lateEvent e = true) :
    e ∉ es ++ [Event.ardourInit v b] ++ (load_session env cl dir snap).1 := by
  intro hmem
  rcases List.mem_append.mp hmem with h1 | h1
  · rcases List.mem_append.mp h1 with h2 | h2
    · rw [(all_optEvent_facts es hall).1 e h2] at hlate
      exact Bool.false_ne_true hlate
    · simp at h2
      subst h2
      simp [lateEvent] at hlate
  · rw [(all_loadEvent_facts _ (loadEvent_all_load_session env cl dir snap)).1 e h1] at hlate
    exact Bool.false_ne_true hlate

theorem rts_not_mem_startup (env : Env) (es : List Event) (v b : Bool)
    (cl dir snap : String) (hall : es.all optEvent = true) :
    Event.requestTransportSpeed ∉
      es ++ [Event.ardourInit v b] ++ (load_session env cl dir snap).1 := by
  intro hmem
  rcases List.mem_append.mp hmem with h1 | h1
  · rcases List.mem_append.mp h1 with h2 | h2
    · exact (all_optEvent_facts es hall).2.1 h2
    · simp at h2
  · exact (all_loadEvent_facts _ (loadEvent_all_load_session env cl dir snap)).2 h1

theorem late_not_mem_pre (env : Env) (es : List Event) (v b : Bool)
    (cl dir snap : String) (hall : es.all optEvent = true) (e : Event)
    (hlate : lateEvent e = true) :
    e ∉ (es ++ [Event.ardourInit v b] ++ (load_session env cl dir snap).1)
      ++ sessionBridgeEvents := by
  intro hmem
  rcases List.mem_append.mp hmem with h1 | h1
  · exact lateEvent_not_mem_startup env es v b cl dir snap hall e hlate h1
  · rw [bridge_not_late e h1] at hlate
    exact Bool.false_ne_true hlate

theorem setBackend_mem_startup (env : Env) (es : List Event) (v b : Bool)
    (cl dir snap : String) (hall : es.all optEvent = true) (n c d : String)
    (h : Event.setBackend n c d ∈
      es ++ [Event.ardourInit v b] ++ (load_session env cl dir snap).1) :
    n = backend_name ∧ c = cl ∧ d = "" := by
  rcases List.mem_append.mp h with h1 | h1
  · rcases List.mem_append.mp h1 with h2 | h2
    · exact absurd h2 ((all_optEvent_facts es hall).2.2.2.1 n c d)
    · simp at h2
  · exact load_session_setBackend_eq env cl dir snap n c d h1

theorem load_session_ok_inv (env : Env) (cl dir snap : String)
    (h : (load_session env cl dir snap).2 = LoadRes.ok) :
    env.setBackendOk = true ∧ env.engineStartRc = 0 ∧ env.sessionExc = none := by
  simp only [load_session] at h
  cases hb : env.setBackendOk
  · rw [hb] at h
    simp at h
  · rw [hb] at h
    by_cases hrc : env.engineStartRc = 0
    · rcases hse : env.sessionExc with _ | e
      · exact ⟨rfl, hrc, rfl⟩
      · rw [hse] at h
        simp [hrc] at h
    · simp [hrc] at h

theorem setBackend_not_mem_waits (rs : List Int) (n c d : String) :
    Event.setBackend n c d ∉ (receiveLoop rs).1 := fun hmem => by
  have := receiveLoop_waits rs _ hmem
  simp at this

/-- C9: the backend name handed to `set_backend` is always the constant
`backend_name` (= "JACK") and the device string is always empty, in every
run and for every command line; the client name is exactly the fold of the
`-c` options over the downcased program name. -/
theorem backend_selection_constant (env : Env) (progName : String) (args : List String)
    (n c d : String) (h : Event.setBackend n c d ∈ (mainRun env progName args).trace) :
    n = backend_name ∧ d = "" ∧
    c = ((tokenize args).1).foldl clientUpd (downcase progName) := by
  rcases mainRun_shape env progName args with
    ⟨es, code, hp, hrun, hall⟩ | ⟨es, st, hp, hlen, hrun, hall⟩ |
    ⟨es, st, hp, hlen, hai, hrun, hall⟩ | ⟨es, st, hp, hlen, hai, hps, hrun, hall⟩ |
    ⟨es, st, dir, snap, rest, hp, hlen, hai, hps, hall, hsub⟩
  · rw [hrun] at h
    exact absurd h ((all_optEvent_facts es hall).2.2.2.1 n c d)
  · rw [hrun] at h
    rcases List.mem_append.mp h with h1 | h1
    · exact absurd h1 ((all_optEvent_facts es hall).2.2.2.1 n c d)
    · simp at h1
  · rw [hrun] at h
    rcases List.mem_append.mp h with h1 | h1
    · exact absurd h1 ((all_optEvent_facts es hall).2.2.2.1 n c d)
    · simp at h1
  · rw [hrun] at h
    rcases List.mem_append.mp h with h1 | h1
    · exact absurd h1 ((all_optEvent_facts es hall).2.2.2.1 n c d)
    · simp at h1
  · have hclient : st.clientName = ((tokenize args).1).foldl clientUpd (downcase progName) :=
      processOpts_clientName env (tokenize args).1 (initState progName) es st hp
    have hdone : n = backend_name ∧ c = st.clientName ∧ d = "" →
        n = backend_name ∧ d = "" ∧
          c = ((tokenize args).1).foldl clientUpd (downcase progName) := by
      rintro ⟨hn, hc, hd⟩
      exact ⟨hn, hd, by rw [hc]; exact hclient⟩
    rcases hsub with ⟨code, hlr, hrun⟩ | ⟨e, hlr, hrun⟩ | ⟨hlr, hrun⟩
    · rw [hrun] at h
      exact hdone (setBackend_mem_startup env es _ _ _ dir snap hall n c d h)
    · rw [hrun] at h
      rcases List.mem_append.mp h with h1 | h1
      · exact hdone (setBackend_mem_startup env es _ _ _ dir snap hall n c d h1)
      · simp at h1
    · rw [hrun] at h
      rcases runLoaded_shape env (es ++ [Event.ardourInit st.useVst st.tryHwOptimization]
          ++ (load_session env st.clientName dir snap).1) with ⟨hflag, k, hrl⟩ | ⟨hflag, hrl⟩ <;>
        rw [hrl] at h
      · rcases List.mem_append.mp h with h1 | h1
        · rcases List.mem_append.mp h1 with h2 | h2
          · rcases List.mem_append.mp h2 with h3 | h3
            · exact hdone (setBackend_mem_startup env es _ _ _ dir snap hall n c d h3)
            · simp [sessionBridgeEvents] at h3
          · exact absurd h2 (by
              intro hmem
              have hk := List.eq_of_mem_replicate hmem
              simp at hk)
        · simp [teardownEvents] at h1
      · rcases List.mem_append.mp h with h1 | h1
        · rcases List.mem_append.mp h1 with h2 | h2
          · exact hdone (setBackend_mem_startup env es _ _ _ dir snap hall n c d h2)
          · simp [sessionBridgeEvents] at h2
        · exact absurd h1 (setBackend_not_mem_waits env.receiveRets n c d)

theorem backend_selection_constant_witness :
    "JACK" = backend_name ∧ "" = "" ∧
    "hardour" = ((tokenize ["dir", "snap"]).1).foldl clientUpd (downcase "hardour") :=
  backend_selection_constant envAllOk "hardour" ["dir", "snap"] "JACK" "hardour" ""
    (by decide)

/-- C1: in every run that reaches Running (the transport request was
issued), once a `receive` call reports a delivery the trace is a startup
prefix — containing no receive wait and no teardown step — followed by the
receive waits and then the four teardown steps exactly once, in the fixed
order unbind, destroy-session, stop-engine, destroy-engine; nothing
follows them, so the coordinator never waits again after a successful
delivery. -/
theorem shutdown_teardown_once_ordered (env : Env) (progName : String) (args : List String)
    (hrunning : Event.requestTransportSpeed ∈ (mainRun env progName args).trace)
    (hrecv : (receiveLoop env.receiveRets).2 = true) :
    ∃ pre k, (mainRun env progName args).trace =
        pre ++ List.replicate (k + 1) Event.receiveWait ++ teardownEvents ∧
      Event.receiveWait ∉ pre ∧ Event.removeSession ∉ pre ∧ Event.deleteSession ∉ pre ∧
      Event.engineStop ∉ pre ∧ Event.engineDestroy ∉ pre := by
  rcases mainRun_shape env progName args with
    ⟨es, code, hp, hrun, hall⟩ | ⟨es, st, hp, hlen, hrun, hall⟩ |
    ⟨es, st, hp, hlen, hai, hrun, hall⟩ | ⟨es, st, hp, hlen, hai, hps, hrun, hall⟩ |
    ⟨es, st, dir, snap, rest, hp, hlen, hai, hps, hall, hsub⟩
  · rw [hrun] at hrunning
    exact absurd hrunning (all_optEvent_facts es hall).2.1
  · rw [hrun] at hrunning
    rcases List.mem_append.mp hrunning with h1 | h1
    · exact absurd h1 (all_optEvent_facts es hall).2.1
    · simp at h1
  · rw [hrun] at hrunning
    rcases List.mem_append.mp hrunning with h1 | h1
    · exact absurd h1 (all_optEvent_facts es hall).2.1
    · simp at h1
  · rw [hrun] at hrunning
    rcases List.mem_append.mp hrunning with h1 | h1
    · exact absurd h1 (all_optEvent_facts es hall).2.1
    · simp at h1
  · rcases hsub with ⟨code, hlr, hrun⟩ | ⟨e, hlr, hrun⟩ | ⟨hlr, hrun⟩
    · rw [hrun] at hrunning
      exact absurd hrunning (rts_not_mem_startup env es _ _ _ dir snap hall)
    · rw [hrun] at hrunning
      rcases List.mem_append.mp hrunning with h1 | h1
      · exact absurd h1 (rts_not_mem_startup env es _ _ _ dir snap hall)
      · simp at h1
    · rcases runLoaded_shape env (es ++ [Event.ardourInit st.useVst st.tryHwOptimization]
          ++ (load_session env st.clientName dir snap).1) with ⟨hflag, k, hrl⟩ | ⟨hflag, hrl⟩
      · refine ⟨(es ++ [Event.ardourInit st.useVst st.tryHwOptimization]
          ++ (load_session env st.clientName dir snap).1) ++ sessionBridgeEvents, k, ?_,
          late_not_mem_pre env es _ _ _ dir snap hall _ rfl,
          late_not_mem_pre env es _ _ _ dir snap hall _ rfl,
          late_not_mem_pre env es _ _ _ dir snap hall _ rfl,
          late_not_mem_pre env es _ _ _ dir snap hall _ rfl,
          late_not_mem_pre env es _ _ _ dir snap hall _ rfl⟩
        rw [hrun, hrl]
      · rw [hflag] at hrecv
        exact absurd hrecv (by simp)

theorem shutdown_teardown_once_ordered_witness :
    ∃ pre k, (mainRun envAllOk "hardour" ["dir", "snap"]).trace =
        pre ++ List.replicate (k + 1) Event.receiveWait ++ teardownEvents ∧
      Event.receiveWait ∉ pre ∧ Event.removeSession ∉ pre ∧ Event.deleteSession ∉ pre ∧
      Event.engineStop ∉ pre ∧ Event.engineDestroy ∉ pre :=
  shutdown_teardown_once_ordered envAllOk "hardour" ["dir", "snap"] (by decide) (by rfl)

theorem load_session_exitedIn_code (env : Env) (cl dir snap : String) (code : Nat)
    (hlr : (load_session env cl dir snap).2 = LoadRes.exitedIn code) : code = 1 := by
  simp only [load_session] at hlr
  cases hb : env.setBackendOk
  · rw [hb] at hlr
    simp at hlr
    omega
  · rw [hb] at hlr
    by_cases hrc : env.engineStartRc = 0
    · rcases hse : env.sessionExc with _ | e <;> rw [hse] at hlr <;> simp [hrc] at hlr
    · simp [hrc] at hlr
      omega

theorem load_session_res_cases (env : Env) (cl dir snap : String) :
    (env.setBackendOk = false ∧ (load_session env cl dir snap).2 = LoadRes.exitedIn 1) ∨
    (env.setBackendOk = true ∧ env.engineStartRc ≠ 0 ∧
      (load_session env cl dir snap).2 = LoadRes.exitedIn 1) ∨
    (env.setBackendOk = true ∧ env.engineStartRc = 0 ∧
      ∃ e, env.sessionExc = some e ∧ (load_session env cl dir snap).2 = LoadRes.threw e) ∨
    (env.setBackendOk = true ∧ env.engineStartRc = 0 ∧ env.sessionExc = none ∧
      (load_session env cl dir snap).2 = LoadRes.ok) := by
  rcases Bool.eq_false_or_eq_true env.setBackendOk with hb | hb
  · by_cases hrc : env.engineStartRc = 0
    · rcases hse : env.sessionExc with _ | e
      · exact Or.inr (Or.inr (Or.inr ⟨hb, hrc, rfl,
          load_session_ok env cl dir snap hb hrc hse⟩))
      · exact Or.inr (Or.inr (Or.inl ⟨hb, hrc, e, rfl,
          load_session_threw env cl dir snap e hb hrc hse⟩))
    · exact Or.inr (Or.inl ⟨hb, hrc, (load_session_start_fail env cl dir snap hb hrc).1⟩)
  · exact Or.inl ⟨hb, (load_session_backend_fail env cl dir snap hb).1⟩

/-- C2: a run whose trace contains the final teardown step (the engine
destruction, which only ever appears after the full four-step sequence)
exits with status 0; a run that created the engine but then failed backend
selection, engine start, or session construction exits with status 1
without reaching Running; and a run that attempted `ARDOUR::init` when it
fails exits with status 1 without reaching Running. -/
theorem exit_codes_match_lifecycle (env : Env) (progName : String) (args : List String) :
    (Event.engineDestroy ∈ (mainRun env progName args).trace →
      (mainRun env progName args).outcome = Outcome.exited 0) ∧
    (Event.createEngine ∈ (mainRun env progName args).trace →
      ¬ (env.setBackendOk = true ∧ env.engineStartRc = 0 ∧ env.sessionExc = none) →
      (mainRun env progName args).outcome = Outcome.exited 1 ∧
        Event.requestTransportSpeed ∉ (mainRun env progName args).trace) ∧
    (∀ v b, Event.ardourInit v b ∈ (mainRun env progName args).trace →
      env.ardourInitOk = false →
      (mainRun env progName args).outcome = Outcome.exited 1 ∧
        Event.requestTransportSpeed ∉ (mainRun env progName args).trace) := by
  rcases mainRun_shape env progName args with
    ⟨es, code, hp, hrun, hall⟩ | ⟨es, st, hp, hlen, hrun, hall⟩ |
    ⟨es, st, hp, hlen, hai, hrun, hall⟩ | ⟨es, st, hp, hlen, hai, hps, hrun, hall⟩ |
    ⟨es, st, dir, snap, rest, hp, hlen, hai, hps, hall, hsub⟩
  · rw [hrun]
    exact ⟨fun hmem => absurd hmem (not_mem_of_all_opt es hall _ rfl),
      fun hmem _ => absurd hmem (all_optEvent_facts es hall).2.2.1,
      fun v b hmem _ => absurd hmem ((all_optEvent_facts es hall).2.2.2.2 v b)⟩
  · rw [hrun]
    refine ⟨fun hmem => ?_, fun hmem _ => ?_, fun v b hmem _ => ?_⟩
    · rcases List.mem_append.mp hmem with h1 | h1
      · exact absurd h1 (not_mem_of_all_opt es hall _ rfl)
      · simp at h1
    · rcases List.mem_append.mp hmem with h1 | h1
      · exact absurd h1 (all_optEvent_facts es hall).2.2.1
      · simp at h1
    · rcases List.mem_append.mp hmem with h1 | h1
      · exact absurd h1 ((all_optEvent_facts es hall).2.2.2.2 v b)
      · simp at h1
  · rw [hrun]
    refine ⟨fun hmem => ?_, fun hmem _ => ?_, fun v b _ _ => ⟨rfl, ?_⟩⟩
    · rcases List.mem_append.mp hmem with h1 | h1
      · exact absurd h1 (not_mem_of_all_opt es hall _ rfl)
      · simp at h1
    · rcases List.mem_append.mp hmem with h1 | h1
      · exact absurd h1 (all_optEvent_facts es hall).2.2.1
      · simp at h1
    · intro hmem
      rcases List.mem_append.mp hmem with h1 | h1
      · exact (all_optEvent_facts es hall).2.1 h1
      · simp at h1
  · rw [hrun]
    refine ⟨fun hmem => ?_, fun hmem _ => ?_,
      fun v b _ hfalse => by rw [hai] at hfalse; simp at hfalse⟩
    · rcases List.mem_append.mp hmem with h1 | h1
      · exact absurd h1 (not_mem_of_all_opt es hall _ rfl)
      · simp at h1
    · rcases List.mem_append.mp hmem with h1 | h1
      · exact absurd h1 (all_optEvent_facts es hall).2.2.1
      · simp at h1
  · rcases hsub with ⟨code, hlr, hrun⟩ | ⟨e, hlr, hrun⟩ | ⟨hlr, hrun⟩
    · have hcode := load_session_exitedIn_code env st.clientName dir snap code hlr
      rw [hrun]
      exact ⟨fun hmem =>
          absurd hmem (lateEvent_not_mem_startup env es _ _ _ dir snap hall _ rfl),
        fun _ _ => ⟨by rw [hcode], rts_not_mem_startup env es _ _ _ dir snap hall⟩,
        fun v b _ hfalse => by rw [hai] at hfalse; simp at hfalse⟩
    · rw [hrun]
      refine ⟨fun hmem => ?_, fun _ _ => ⟨rfl, ?_⟩,
        fun v b _ hfalse => by rw [hai] at hfalse; simp at hfalse⟩
      · rcases List.mem_append.mp hmem with h1 | h1
        · exact absurd h1 (lateEvent_not_mem_startup env es _ _ _ dir snap hall _ rfl)
        · simp at h1
      · intro hmem
        rcases List.mem_append.mp hmem with h1 | h1
        · exact rts_not_mem_startup env es _ _ _ dir snap hall h1
        · simp at h1
    · have hinv := load_session_ok_inv env st.clientName dir snap hlr
      rw [hrun]
      rcases runLoaded_shape env (es ++ [Event.ardourInit st.useVst st.tryHwOptimization]
          ++ (load_session env st.clientName dir snap).1) with ⟨hflag, k, hrl⟩ | ⟨hflag, hrl⟩ <;>
        rw [hrl]
      · exact ⟨fun _ => rfl, fun _ hne => absurd hinv hne,
          fun v b _ hfalse => by rw [hai] at hfalse; simp at hfalse⟩
      · refine ⟨fun hmem => ?_, fun _ hne => absurd hinv hne,
          fun v b _ hfalse => by rw [hai] at hfalse; simp at hfalse⟩
        rcases List.mem_append.mp hmem with h1 | h1
        · exact absurd h1 (late_not_mem_pre env es _ _ _ dir snap hall _ rfl)
        · have := receiveLoop_waits env.receiveRets _ h1
          simp at this

theorem exit_codes_match_lifecycle_witness :
    (mainRun envAllOk "hardour" ["dir", "snap"]).outcome = Outcome.exited 0 ∧
    (mainRun envNoBackend "hardour" ["dir", "snap"]).outcome = Outcome.exited 1 ∧
    Event.requestTransportSpeed ∉ (mainRun envNoBackend "hardour" ["dir", "snap"]).trace :=
  ⟨(exit_codes_match_lifecycle envAllOk "hardour" ["dir", "snap"]).1 (by decide),
   ((exit_codes_match_lifecycle envNoBackend "hardour" ["dir", "snap"]).2.1
     (by decide) (by decide)).1,
   ((exit_codes_match_lifecycle envNoBackend "hardour" ["dir", "snap"]).2.1
     (by decide) (by decide)).2⟩

/-- C5: in a run that created the engine, if backend selection fails or
the engine start fails, the run reports the corresponding error on the
error stream and exits with status 1, and none of the four teardown steps
appears in its trace. -/
theorem engine_failure_exit1_no_teardown (env : Env) (progName : String) (args : List String)
    (hce : Event.createEngine ∈ (mainRun env progName args).trace)
    (hfail : env.setBackendOk = false ∨ env.engineStartRc ≠ 0) :
    (mainRun env progName args).outcome = Outcome.exited 1 ∧
    (env.setBackendOk = false →
      Event.err "Cannot set Audio/MIDI engine backend\n" ∈ (mainRun env progName args).trace) ∧
    (env.setBackendOk = true →
      Event.err "Cannot start Audio/MIDI engine\n" ∈ (mainRun env progName args).trace) ∧
    Event.removeSession ∉ (mainRun env progName args).trace ∧
    Event.deleteSession ∉ (mainRun env progName args).trace ∧
    Event.engineStop ∉ (mainRun env progName args).trace ∧
    Event.engineDestroy ∉ (mainRun env progName args).trace := by
  rcases mainRun_shape env progName args with
    ⟨es, code, hp, hrun, hall⟩ | ⟨es, st, hp, hlen, hrun, hall⟩ |
    ⟨es, st, hp, hlen, hai, hrun, hall⟩ | ⟨es, st, hp, hlen, hai, hps, hrun, hall⟩ |
    ⟨es, st, dir, snap, rest, hp, hlen, hai, hps, hall, hsub⟩
  · rw [hrun] at hce
    exact absurd hce (all_optEvent_facts es hall).2.2.1
  · rw [hrun] at hce
    rcases List.mem_append.mp hce with h1 | h1
    · exact absurd h1 (all_optEvent_facts es hall).2.2.1
    · simp at h1
  · rw [hrun] at hce
    rcases List.mem_append.mp hce with h1 | h1
    · exact absurd h1 (all_optEvent_facts es hall).2.2.1
    · simp at h1
  · rw [hrun] at hce
    rcases List.mem_append.mp hce with h1 | h1
    · exact absurd h1 (all_optEvent_facts es hall).2.2.1
    · simp at h1
  · rcases hsub with ⟨code, hlr, hrun⟩ | ⟨e, hlr, hrun⟩ | ⟨hlr, hrun⟩
    · have hcode := load_session_exitedIn_code env st.clientName dir snap code hlr
      rw [hrun]
      refine ⟨by rw [hcode], fun hb => ?_, fun hb => ?_,
        fun hmem => absurd hmem (lateEvent_not_mem_startup env es _ _ _ dir snap hall _ rfl),
        fun hmem => absurd hmem (lateEvent_not_mem_startup env es _ _ _ dir snap hall _ rfl),
        fun hmem => absurd hmem (lateEvent_not_mem_startup env es _ _ _ dir snap hall _ rfl),
        fun hmem => absurd hmem (lateEvent_not_mem_startup env es _ _ _ dir snap hall _ rfl)⟩
      · exact List.mem_append.mpr
          (Or.inr (load_session_backend_fail env st.clientName dir snap hb).2)
      · rcases hfail with hf | hf
        · rw [hb] at hf
          simp at hf
        · exact List.mem_append.mpr
            (Or.inr (load_session_start_fail env st.clientName dir snap hb hf).2)
    · rcases load_session_res_cases env st.clientName dir snap with
        ⟨hb, hres⟩ | ⟨hb, hrc, hres⟩ | ⟨hb, hrc, e2, hse, hres⟩ | ⟨hb, hrc, hse, hres⟩
      · rw [hlr] at hres
        simp at hres
      · rw [hlr] at hres
        simp at hres
      · rcases hfail with hf | hf
        · rw [hb] at hf
          simp at hf
        · exact absurd hrc hf
      · rcases hfail with hf | hf
        · rw [hb] at hf
          simp at hf
        · exact absurd hrc hf
    · have hinv := load_session_ok_inv env st.clientName dir snap hlr
      rcases hfail with hf | hf
      · rw [hinv.1] at hf
        simp at hf
      · exact absurd hinv.2.1 hf

theorem engine_failure_exit1_no_teardown_witness :
    (mainRun envNoBackend "hardour" ["dir", "snap"]).outcome = Outcome.exited 1 ∧
    Event.err "Cannot set Audio/MIDI engine backend\n" ∈
      (mainRun envNoBackend "hardour" ["dir", "snap"]).trace ∧
    Event.engineDestroy ∉ (mainRun envNoBackend "hardour" ["dir", "snap"]).trace :=
  ⟨(engine_failure_exit1_no_teardown envNoBackend "hardour" ["dir", "snap"]
      (by decide) (Or.inl rfl)).1,
   (engine_failure_exit1_no_teardown envNoBackend "hardour" ["dir", "snap"]
      (by decide) (Or.inl rfl)).2.1 rfl,
   (engine_failure_exit1_no_teardown envNoBackend "hardour" ["dir", "snap"]
      (by decide) (Or.inl rfl)).2.2.2.2.2.2⟩

/-- C6: in a run that created the engine, if session construction throws
(any of the four modelled exception kinds), the exception is caught, its
message is written to the error stream, and the process exits with status
1 before Running, with no teardown step in its trace. -/
theorem session_exception_exit_failure (env : Env) (progName : String) (args : List String)
    (e : SessExc) (hce : Event.createEngine ∈ (mainRun env progName args).trace)
    (hb : env.setBackendOk = true) (hrc : env.engineStartRc = 0)
    (hexc : env.sessionExc = some e) :
    Event.err (excMessage e) ∈ (mainRun env progName args).trace ∧
    (mainRun env progName args).outcome = Outcome.exited 1 ∧
    Event.requestTransportSpeed ∉ (mainRun env progName args).trace ∧
    Event.removeSession ∉ (mainRun env progName args).trace ∧
    Event.deleteSession ∉ (mainRun env progName args).trace ∧
    Event.engineStop ∉ (mainRun env progName args).trace ∧
    Event.engineDestroy ∉ (mainRun env progName args).trace := by
  rcases mainRun_shape env progName args with
    ⟨es, code, hp, hrun, hall⟩ | ⟨es, st, hp, hlen, hrun, hall⟩ |
    ⟨es, st, hp, hlen, hai, hrun, hall⟩ | ⟨es, st, hp, hlen, hai, hps, hrun, hall⟩ |
    ⟨es, st, dir, snap, rest, hp, hlen, hai, hps, hall, hsub⟩
  · rw [hrun] at hce
    exact absurd hce (all_optEvent_facts es hall).2.2.1
  · rw [hrun] at hce
    rcases List.mem_append.mp hce with h1 | h1
    · exact absurd h1 (all_optEvent_facts es hall).2.2.1
    · simp at h1
  · rw [hrun] at hce
    rcases List.mem_append.mp hce with h1 | h1
    · exact absurd h1 (all_optEvent_facts es hall).2.2.1
    · simp at h1
  · rw [hrun] at hce
    rcases List.mem_append.mp hce with h1 | h1
    · exact absurd h1 (all_optEvent_facts es hall).2.2.1
    · simp at h1
  · have hthrew := load_session_threw env st.clientName dir snap e hb hrc hexc
    rcases hsub with ⟨code, hlr, hrun⟩ | ⟨e2, hlr, hrun⟩ | ⟨hlr, hrun⟩
    · rw [hlr] at hthrew
      simp at hthrew
    · rw [hlr] at hthrew
      simp at hthrew
      subst hthrew
      rw [hrun]
      refine ⟨List.mem_append.mpr (Or.inr (by simp)), rfl, ?_, ?_, ?_, ?_, ?_⟩
      · intro hmem
        rcases List.mem_append.mp hmem with h1 | h1
        · exact rts_not_mem_startup env es _ _ _ dir snap hall h1
        · simp at h1
      all_goals
        intro hmem
        rcases List.mem_append.mp hmem with h1 | h1
        · exact absurd h1 (lateEvent_not_mem_startup env es _ _ _ dir snap hall _ rfl)
        · simp at h1
    · rw [hlr] at hthrew
      simp at hthrew

theorem session_exception_exit_failure_witness :
    Event.err (excMessage (SessExc.failedConstructor "boom")) ∈
      (mainRun envSessionThrows "hardour" ["dir", "snap"]).trace ∧
    (mainRun envSessionThrows "hardour" ["dir", "snap"]).outcome = Outcome.exited 1 :=
  ⟨(session_exception_exit_failure envSessionThrows "hardour" ["dir", "snap"]
      (SessExc.failedConstructor "boom") (by decide) rfl rfl rfl).1,
   (session_exception_exit_failure envSessionThrows "hardour" ["dir", "snap"]
      (SessExc.failedConstructor "boom") (by decide) rfl rfl rfl).2.1⟩

end LoadSession
